import Mathlib

/-!
Shallow embedding of the `apnoxide` push-notification client
(`src/types.rs`, `src/serialize.rs`, `src/client.rs`).

JSON values are modelled by the inductive `Json`; serde serialization of
the payload structs is translated field by field into functions producing
ordered association lists of JSON object members, mirroring exactly the
serde attributes on the source (`skip_serializing_if = Option.is_none`,
`rename` / `rename_all = kebab-case`, `untagged`, `flatten`, and
`serde_as(as = Option<BoolFromInt>)`, which encodes `true` as the integer
`1` and `false` as the integer `0`).  `serde_json::to_string` is modelled
by `renderJson` (compact output, members in emission order).  Rust `f64`
payload fields are modelled by an opaque bit pattern `F64`; no claim
examines a float value, so its textual formatting is left abstract.
-/

/-- Opaque stand-in for a Rust `f64` value (its IEEE-754 bit pattern).
No verified property inspects a float, so only identity of the bits
matters to this development. -/
structure F64 where
  bits : Nat
deriving DecidableEq

/-- JSON values, as produced by `serde_json`.  Objects keep their members
in emission order, exactly as the serializer emits them. -/
inductive Json where
  | null
  | bool (b : Bool)
  | num (n : Nat)
  | fnum (f : F64)
  | str (s : String)
  | arr (xs : List Json)
  | obj (fields : List (String × Json))

/-- Test for the object shape, used for the `StructWrapper` conversion
(`serialize.rs`): only `Value::Object` is accepted. -/
def Json.isObj : Json → Bool
  | .obj _ => true
  | _ => false

/-- Hex digit characters as used by `serde_json` for `\u00XX` escapes. -/
def hexDigitChar (n : Nat) : Char :=
  if n < 10 then Char.ofNat (48 + n) else Char.ofNat (87 + n)

/-- Escaping of one character inside a JSON string literal, following
`serde_json`: quote and backslash are escaped, control characters use the
short escapes or a `\u00XX` escape, everything else passes through. -/
def escapeChar (c : Char) : String :=
  if c = Char.ofNat 34 then "\\\""
  else if c = Char.ofNat 92 then "\\\\"
  else if c.toNat < 32 then
    match c.toNat with
    | 8 => "\\b"
    | 9 => "\\t"
    | 10 => "\\n"
    | 12 => "\\f"
    | 13 => "\\r"
    | n => "\\u00" ++ String.singleton (hexDigitChar (n / 16)) ++
        String.singleton (hexDigitChar (n % 16))
  else String.singleton c

/-- Rendering of a JSON string literal with surrounding quotes. -/
def renderString (s : String) : String :=
  "\"" ++ String.join (s.data.map escapeChar) ++ "\""

mutual

/-- Compact rendering of a JSON value, as `serde_json::to_string` prints
it.  Floats are not rendered concretely (no claim depends on them). -/
def renderJson : Json → String
  | .null => "null"
  | .bool b => cond b "true" "false"
  | .num n => toString n
  | .fnum f => toString f.bits
  | .str s => renderString s
  | .arr xs => "[" ++ String.intercalate "," (renderJsonList xs) ++ "]"
  | .obj fields => "\x7b" ++ String.intercalate "," (renderMembers fields) ++ "\x7d"

/-- Rendering of the elements of a JSON array. -/
def renderJsonList : List Json → List String
  | [] => []
  | x :: xs => renderJson x :: renderJsonList xs

/-- Rendering of the members of a JSON object. -/
def renderMembers : List (String × Json) → List String
  | [] => []
  | (k, v) :: rest => (renderString k ++ ":" ++ renderJson v) :: renderMembers rest

end

/-- Emission of one optional struct field under serde attributes
`skip_serializing_if = Option.is_none` plus a field serializer `f`:
a `none` field is omitted entirely, a `some` field is emitted in
declaration order before the remaining fields `rest`. -/
def addField (k : String) (f : α → Json) (o : Option α) (rest : List (String × Json)) :
    List (String × Json) :=
  match o with
  | none => rest
  | some a => (k, f a) :: rest

/-- First-match lookup of a member in a serialized JSON object. -/
def lookupField : List (String × Json) → String → Option Json
  | [], _ => none
  | (k, v) :: rest, key => if k = key then some v else lookupField rest key

/-- Lookup through one optional field emission. -/
theorem lookupField_addField (k key : String) (f : α → Json) (o : Option α)
    (rest : List (String × Json)) :
    lookupField (addField k f o rest) key =
      if k = key then (o.map f).orElse (fun _ => lookupField rest key)
      else lookupField rest key := by
  cases o with
  | none =>
    simp only [addField]
    cases h : decide (k = key) with
    | false => simp [of_decide_eq_false h]
    | true => simp [of_decide_eq_true h, Option.orElse]
  | some a =>
    simp only [addField, lookupField]
    cases h : decide (k = key) with
    | false => simp [of_decide_eq_false h]
    | true => simp [of_decide_eq_true h, Option.orElse]

/-- Serde encoding of a `bool` under `BoolFromInt`: `true` becomes the
JSON integer `1` and `false` the JSON integer `0` (`serde_with`). -/
def boolFlagJson (b : Bool) : Json :=
  Json.num (cond b 1 0)

/-- The `Title` union (`types.rs`): a `Normal` string serialized under the
fixed name `title`, or an untagged `Localized` shape with `title-loc-key`
and optional `title-loc-args`. -/
inductive Title where
  | Normal (s : String)
  | Localized (key : String) (args : Option (List String))

/-- Object members contributed by a `Title` value when flattened. -/
def Title.fields : Title → List (String × Json)
  | .Normal s => [("title", Json.str s)]
  | .Localized key args =>
      ("title-loc-key", Json.str key) ::
        addField "title-loc-args" (fun l => Json.arr (l.map Json.str)) args []

/-- The `Subtitle` union (`types.rs`), analogous to `Title`. -/
inductive Subtitle where
  | Normal (s : String)
  | Localized (key : String) (args : Option (List String))

/-- Object members contributed by a `Subtitle` value when flattened. -/
def Subtitle.fields : Subtitle → List (String × Json)
  | .Normal s => [("subtitle", Json.str s)]
  | .Localized key args =>
      ("subtitle-loc-key", Json.str key) ::
        addField "subtitle-loc-args" (fun l => Json.arr (l.map Json.str)) args []

/-- The `Body` union (`types.rs`): `body`, or `loc-key` / `loc-args`. -/
inductive Body where
  | Normal (s : String)
  | Localized (key : String) (args : Option (List String))

/-- Object members contributed by a `Body` value when flattened. -/
def Body.fields : Body → List (String × Json)
  | .Normal s => [("body", Json.str s)]
  | .Localized key args =>
      ("loc-key", Json.str key) ::
        addField "loc-args" (fun l => Json.arr (l.map Json.str)) args []

/-- Flattening of an `Option`al sub-struct (`serde(flatten)` on an
`Option` field): `none` contributes nothing. -/
def flattenOpt (f : α → List (String × Json)) : Option α → List (String × Json)
  | none => []
  | some a => f a

/-- The untagged `Alert` union (`types.rs`): either a bare string, or the
`Full` shape whose `Title` / `Subtitle` / `Body` members are flattened
directly into the alert object, followed by `launch-image`. -/
inductive Alert where
  | Body (s : String)
  | Full (title : Option Title) (subtitle : Option Subtitle) (body : Option Body)
      (launch_image : Option String)

/-- Serialization of an `Alert` value. -/
def Alert.toJson : Alert → Json
  | .Body s => Json.str s
  | .Full title subtitle body launch_image =>
      Json.obj (flattenOpt Title.fields title ++ flattenOpt Subtitle.fields subtitle ++
        flattenOpt Body.fields body ++
        addField "launch-image" Json.str launch_image [])

/-- The untagged `Sound` union (`types.rs`): a bare string, or the
structured `Critical` shape. -/
inductive Sound where
  | Regular (s : String)
  | Critical (critical : Option Bool) (name : Option String) (volume : Option F64)

/-- Object members of the structured `Critical` sound shape: the
`critical` flag uses the `BoolFromInt` encoding, `name` and `volume`
are plain optional fields. -/
def Sound.criticalFields (critical : Option Bool) (name : Option String)
    (volume : Option F64) : List (String × Json) :=
  addField "critical" boolFlagJson critical
    (addField "name" Json.str name
      (addField "volume" Json.fnum volume []))

/-- Serialization of a `Sound` value. -/
def Sound.toJson : Sound → Json
  | .Regular s => Json.str s
  | .Critical critical name volume => Json.obj (Sound.criticalFields critical name volume)

/-- The closed `InterruptionLevel` enumeration (`types.rs`), serialized
with `rename_all = kebab-case`. -/
inductive InterruptionLevel where
  | Passive
  | Active
  | TimeSensitive
  | Critical

/-- Serialization of an `InterruptionLevel` value. -/
def InterruptionLevel.toJson : InterruptionLevel → Json
  | .Passive => Json.str "passive"
  | .Active => Json.str "active"
  | .TimeSensitive => Json.str "time-sensitive"
  | .Critical => Json.str "critical"

/-- The `Notification` struct (`types.rs`): the `aps` block.  All fields
are optional and carry `skip_serializing_if = Option.is_none`; the two
boolean flags additionally carry `serde_as(as = Option<BoolFromInt>)`. -/
structure Notification where
  alert : Option Alert
  badge : Option Nat
  sound : Option Sound
  thread_id : Option String
  category : Option String
  content_available : Option Bool
  mutable_content : Option Bool
  target_content_id : Option String
  interruption_level : Option InterruptionLevel
  relevance_score : Option F64
  filter_criteria : Option String
  stale_date : Option Nat
  content_state : Option (List (String × Json))
  timestamp : Option Nat
  event : Option String
  dismissal_date : Option Nat
  attributes_type : Option String
  attributes : Option (List (String × Json))

/-- The derived `Default` for `Notification`: every field unset. -/
def Notification.default : Notification :=
  ⟨none, none, none, none, none, none, none, none, none, none, none, none, none,
    none, none, none, none, none⟩

/-- Serialization of a `Notification` into its JSON object members, in
declaration order, with `rename_all = kebab-case` field names. -/
def Notification.toFields (n : Notification) : List (String × Json) :=
  addField "alert" Alert.toJson n.alert
    (addField "badge" Json.num n.badge
      (addField "sound" Sound.toJson n.sound
        (addField "thread-id" Json.str n.thread_id
          (addField "category" Json.str n.category
            (addField "content-available" boolFlagJson n.content_available
              (addField "mutable-content" boolFlagJson n.mutable_content
                (addField "target-content-id" Json.str n.target_content_id
                  (addField "interruption-level" InterruptionLevel.toJson n.interruption_level
                    (addField "relevance-score" Json.fnum n.relevance_score
                      (addField "filter-criteria" Json.str n.filter_criteria
                        (addField "stale-date" Json.num n.stale_date
                          (addField "content-state" Json.obj n.content_state
                            (addField "timestamp" Json.num n.timestamp
                              (addField "event" Json.str n.event
                                (addField "dismissal-date" Json.num n.dismissal_date
                                  (addField "attributes-type" Json.str n.attributes_type
                                    (addField "attributes" Json.obj n.attributes [])))))))))))))))))

/-- The `Payload` struct (`types.rs`): the `aps` block under its fixed
key plus flattened optional custom members. -/
structure Payload where
  aps : Notification
  custom : Option (List (String × Json))

/-- The derived `Default` for `Payload`. -/
def Payload.default : Payload :=
  ⟨Notification.default, none⟩

/-- Lookup of the `alert` member of a serialized notification. -/
theorem lookup_toFields_alert (n : Notification) :
    lookupField n.toFields "alert" = n.alert.map Alert.toJson := by
  rw [Notification.toFields]
  simp only [lookupField_addField]
  cases n.alert <;> simp [lookupField, Option.orElse]

/-- Lookup of the `badge` member of a serialized notification. -/
theorem lookup_toFields_badge (n : Notification) :
    lookupField n.toFields "badge" = n.badge.map Json.num := by
  rw [Notification.toFields]
  simp only [lookupField_addField]
  cases n.badge <;> simp [lookupField, Option.orElse]

/-- Lookup of the `sound` member of a serialized notification. -/
theorem lookup_toFields_sound (n : Notification) :
    lookupField n.toFields "sound" = n.sound.map Sound.toJson := by
  rw [Notification.toFields]
  simp only [lookupField_addField]
  cases n.sound <;> simp [lookupField, Option.orElse]

/-- Lookup of the `thread-id` member of a serialized notification. -/
theorem lookup_toFields_thread_id (n : Notification) :
    lookupField n.toFields "thread-id" = n.thread_id.map Json.str := by
  rw [Notification.toFields]
  simp only [lookupField_addField]
  cases n.thread_id <;> simp [lookupField, Option.orElse]

/-- Lookup of the `category` member of a serialized notification. -/
theorem lookup_toFields_category (n : Notification) :
    lookupField n.toFields "category" = n.category.map Json.str := by
  rw [Notification.toFields]
  simp only [lookupField_addField]
  cases n.category <;> simp [lookupField, Option.orElse]

/-- Lookup of the `content-available` member of a serialized notification. -/
theorem lookup_toFields_content_available (n : Notification) :
    lookupField n.toFields "content-available" = n.content_available.map boolFlagJson := by
  rw [Notification.toFields]
  simp only [lookupField_addField]
  cases n.content_available <;> simp [lookupField, Option.orElse]

/-- Lookup of the `mutable-content` member of a serialized notification. -/
theorem lookup_toFields_mutable_content (n : Notification) :
    lookupField n.toFields "mutable-content" = n.mutable_content.map boolFlagJson := by
  rw [Notification.toFields]
  simp only [lookupField_addField]
  cases n.mutable_content <;> simp [lookupField, Option.orElse]

/-- Lookup of the `target-content-id` member of a serialized notification. -/
theorem lookup_toFields_target_content_id (n : Notification) :
    lookupField n.toFields "target-content-id" = n.target_content_id.map Json.str := by
  rw [Notification.toFields]
  simp only [lookupField_addField]
  cases n.target_content_id <;> simp [lookupField, Option.orElse]

/-- Lookup of the `interruption-level` member of a serialized notification. -/
theorem lookup_toFields_interruption_level (n : Notification) :
    lookupField n.toFields "interruption-level" =
      n.interruption_level.map InterruptionLevel.toJson := by
  rw [Notification.toFields]
  simp only [lookupField_addField]
  cases n.interruption_level <;> simp [lookupField, Option.orElse]

/-- Lookup of the `relevance-score` member of a serialized notification. -/
theorem lookup_toFields_relevance_score (n : Notification) :
    lookupField n.toFields "relevance-score" = n.relevance_score.map Json.fnum := by
  rw [Notification.toFields]
  simp only [lookupField_addField]
  cases n.relevance_score <;> simp [lookupField, Option.orElse]

/-- Lookup of the `filter-criteria` member of a serialized notification. -/
theorem lookup_toFields_filter_criteria (n : Notification) :
    lookupField n.toFields "filter-criteria" = n.filter_criteria.map Json.str := by
  rw [Notification.toFields]
  simp only [lookupField_addField]
  cases n.filter_criteria <;> simp [lookupField, Option.orElse]

/-- Lookup of the `stale-date` member of a serialized notification. -/
theorem lookup_toFields_stale_date (n : Notification) :
    lookupField n.toFields "stale-date" = n.stale_date.map Json.num := by
  rw [Notification.toFields]
  simp only [lookupField_addField]
  cases n.stale_date <;> simp [lookupField, Option.orElse]

/-- Lookup of the `content-state` member of a serialized notification. -/
theorem lookup_toFields_content_state (n : Notification) :
    lookupField n.toFields "content-state" = n.content_state.map Json.obj := by
  rw [Notification.toFields]
  simp only [lookupField_addField]
  cases n.content_state <;> simp [lookupField, Option.orElse]

/-- Lookup of the `timestamp` member of a serialized notification. -/
theorem lookup_toFields_timestamp (n : Notification) :
    lookupField n.toFields "timestamp" = n.timestamp.map Json.num := by
  rw [Notification.toFields]
  simp only [lookupField_addField]
  cases n.timestamp <;> simp [lookupField, Option.orElse]

/-- Lookup of the `event` member of a serialized notification. -/
theorem lookup_toFields_event (n : Notification) :
    lookupField n.toFields "event" = n.event.map Json.str := by
  rw [Notification.toFields]
  simp only [lookupField_addField]
  cases n.event <;> simp [lookupField, Option.orElse]

/-- Lookup of the `dismissal-date` member of a serialized notification. -/
theorem lookup_toFields_dismissal_date (n : Notification) :
    lookupField n.toFields "dismissal-date" = n.dismissal_date.map Json.num := by
  rw [Notification.toFields]
  simp only [lookupField_addField]
  cases n.dismissal_date <;> simp [lookupField, Option.orElse]

/-- Lookup of the `attributes-type` member of a serialized notification. -/
theorem lookup_toFields_attributes_type (n : Notification) :
    lookupField n.toFields "attributes-type" = n.attributes_type.map Json.str := by
  rw [Notification.toFields]
  simp only [lookupField_addField]
  cases n.attributes_type <;> simp [lookupField, Option.orElse]

/-- Lookup of the `attributes` member of a serialized notification. -/
theorem lookup_toFields_attributes (n : Notification) :
    lookupField n.toFields "attributes" = n.attributes.map Json.obj := by
  rw [Notification.toFields]
  simp only [lookupField_addField]
  cases n.attributes <;> simp [lookupField, Option.orElse]

/-- Test for the JSON boolean shape. -/
def Json.isBool : Json → Bool
  | .bool _ => true
  | _ => false

/-- Lookup of the `critical` flag inside the structured sound shape. -/
theorem lookup_criticalFields_critical (c : Option Bool) (nm : Option String)
    (v : Option F64) :
    lookupField (Sound.criticalFields c nm v) "critical" = c.map boolFlagJson := by
  rw [Sound.criticalFields]
  simp only [lookupField_addField]
  cases c <;> simp [lookupField, Option.orElse]

/-- C9: a serialized `Notification` contains a member for an optional field
exactly when that field is set — the lookup of every one of the eighteen
member names equals the mapped field value, so an unset (`None`) field
contributes no member at all; and the all-unset default notification
renders to the empty JSON object. -/
theorem notification_omits_unset_fields :
    (∀ n : Notification,
      lookupField n.toFields "alert" = n.alert.map Alert.toJson
      ∧ lookupField n.toFields "badge" = n.badge.map Json.num
      ∧ lookupField n.toFields "sound" = n.sound.map Sound.toJson
      ∧ lookupField n.toFields "thread-id" = n.thread_id.map Json.str
      ∧ lookupField n.toFields "category" = n.category.map Json.str
      ∧ lookupField n.toFields "content-available" = n.content_available.map boolFlagJson
      ∧ lookupField n.toFields "mutable-content" = n.mutable_content.map boolFlagJson
      ∧ lookupField n.toFields "target-content-id" = n.target_content_id.map Json.str
      ∧ lookupField n.toFields "interruption-level" =
          n.interruption_level.map InterruptionLevel.toJson
      ∧ lookupField n.toFields "relevance-score" = n.relevance_score.map Json.fnum
      ∧ lookupField n.toFields "filter-criteria" = n.filter_criteria.map Json.str
      ∧ lookupField n.toFields "stale-date" = n.stale_date.map Json.num
      ∧ lookupField n.toFields "content-state" = n.content_state.map Json.obj
      ∧ lookupField n.toFields "timestamp" = n.timestamp.map Json.num
      ∧ lookupField n.toFields "event" = n.event.map Json.str
      ∧ lookupField n.toFields "dismissal-date" = n.dismissal_date.map Json.num
      ∧ lookupField n.toFields "attributes-type" = n.attributes_type.map Json.str
      ∧ lookupField n.toFields "attributes" = n.attributes.map Json.obj)
    ∧ renderJson (Json.obj Notification.default.toFields) = "\x7b\x7d" :=
  ⟨fun n =>
    ⟨lookup_toFields_alert n, lookup_toFields_badge n, lookup_toFields_sound n,
      lookup_toFields_thread_id n, lookup_toFields_category n,
      lookup_toFields_content_available n, lookup_toFields_mutable_content n,
      lookup_toFields_target_content_id n, lookup_toFields_interruption_level n,
      lookup_toFields_relevance_score n, lookup_toFields_filter_criteria n,
      lookup_toFields_stale_date n, lookup_toFields_content_state n,
      lookup_toFields_timestamp n, lookup_toFields_event n,
      lookup_toFields_dismissal_date n, lookup_toFields_attributes_type n,
      lookup_toFields_attributes n⟩,
    rfl⟩

/-- C1 (amended): each `Option Bool` flag of the notification block and the
`critical` flag of the structured sound shape serialize under `BoolFromInt`
as: member absent if the flag is `none`, integer `1` if `some true`, and
integer `0` if `some false`; the emitted value is never a JSON boolean. -/
theorem boolFlag_wire_encoding (n : Notification) (c : Option Bool)
    (nm : Option String) (v : Option F64) :
    lookupField n.toFields "content-available" = n.content_available.map boolFlagJson
    ∧ lookupField n.toFields "mutable-content" = n.mutable_content.map boolFlagJson
    ∧ lookupField (Sound.criticalFields c nm v) "critical" = c.map boolFlagJson
    ∧ boolFlagJson true = Json.num 1
    ∧ boolFlagJson false = Json.num 0
    ∧ ∀ b : Bool, (boolFlagJson b).isBool = false :=
  ⟨lookup_toFields_content_available n, lookup_toFields_mutable_content n,
    lookup_criticalFields_critical c nm v, rfl, rfl, fun b => by cases b <;> rfl⟩

/-- C1 counterexample: a notification whose only set field is
`mutable_content = some false` serializes with the member
`"mutable-content": 0` present — the claim says `Some(false)` must be
absent from the wire, but `BoolFromInt` encodes `false` as the integer
`0`. -/
theorem boolFlag_some_false_is_emitted :
    lookupField
      ({ Notification.default with mutable_content := some false } : Notification).toFields
      "mutable-content" = some (Json.num 0) := rfl

/-- Notification of the worked serialization example: full alert with a
normal title and a localized subtitle, critical sound with only the flag
set, mutable content set, time-sensitive interruption level. -/
def testFilledNotification : Notification :=
  { Notification.default with
    alert := some (Alert.Full (some (Title.Normal "Title"))
      (some (Subtitle.Localized "SUBTITLE_KEY" none)) none none),
    sound := some (Sound.Critical (some true) none none),
    mutable_content := some true,
    interruption_level := some InterruptionLevel.TimeSensitive }

/-- C5: the example notification serializes exactly to the expected wire
string — alert sub-shapes are flattened without discriminator tags, the
flags appear as the integer `1`, and the interruption level is the
kebab-case string. -/
theorem filled_notification_serializes_exactly :
    renderJson (Json.obj testFilledNotification.toFields) =
      "\x7b\"alert\":\x7b\"title\":\"Title\",\"subtitle-loc-key\":\"SUBTITLE_KEY\"\x7d,\"sound\":\x7b\"critical\":1\x7d,\"mutable-content\":1,\"interruption-level\":\"time-sensitive\"\x7d" :=
  rfl

/-- Receipt of a successful push (`APNResponse`, `client.rs`): the
`apns-id` header value and the optional `apns-unique-id` value. -/
structure APNResponse where
  id : String
  unique_id : Option String

/-- Decoded error body of a non-200 response (`APNErrorResponse`):
a required `reason` string and an optional integer `timestamp`. -/
structure APNErrorResponse where
  reason : String
  timestamp : Option Nat

/-- The error taxonomy of `APNClientError` (`client.rs`).  `initError`
stands for the `InitializeError` variant of the source. -/
inductive APNClientError where
  | initError (msg : String)
  | signError (msg : String)
  | systemTimeError
  | httpError
  | headerError
  | invalidResponseError
  | apnError (response : APNResponse) (status : Nat) (error : APNErrorResponse)
  | toStrError

/-- Mutable token-cache state of an `APNClient` (`client.rs`): the cached
`token` and the `signed_time` field.  Time is modelled in whole seconds;
`APNClient::new` initializes the state to `(none, construction time)`. -/
structure APNClientState where
  token : Option String
  signed_time : Nat

/-- The refresh tail of `APNClient::sign`: builds the ES256 header with
`kid` set and `typ` suppressed, the claims `iss = team_id` and
`iat = now`, and calls `jsonwebtoken::encode` — abstracted here as the
primitive `signPrim` applied to the issue time, with `none` modelling an
encode failure.  On success the new token is stored in `self.token`; the
source does not write `signed_time` anywhere in `sign`. -/
def APNClient.signRefresh (signPrim : Nat → Option String) (now : Nat)
    (st : APNClientState) : Except APNClientError (String × APNClientState) :=
  match signPrim now with
  | none => .error (.signError "Unable to sign token")
  | some t => .ok (t, { st with token := some t })

/-- `APNClient::sign` (`client.rs` lines 111-137): when a token is cached
and the elapsed time since `signed_time` is strictly below 20 minutes the
cached token is returned unchanged; `duration_since` failing (current
time before `signed_time`) is a `SystemTimeError`; otherwise the token is
re-signed via `APNClient.signRefresh`. -/
def APNClient.sign (signPrim : Nat → Option String) (now : Nat)
    (st : APNClientState) : Except APNClientError (String × APNClientState) :=
  match st.token with
  | some token =>
      if now < st.signed_time then .error .systemTimeError
      else if now - st.signed_time < 60 * 20 then .ok (token, st)
      else APNClient.signRefresh signPrim now st
  | none => APNClient.signRefresh signPrim now st

/-- C2: evaluation of `APNClient.sign` at a refresh point.  A client whose
cache was filled at time `0` refreshes at time `1200` (20 minutes later):
the stored token becomes the newly signed one, but the stored timestamp
stays `0` instead of becoming `1200` — the pair is not replaced together,
because `sign` never writes `signed_time`. -/
theorem sign_refresh_leaves_timestamp_stale :
    APNClient.sign (fun t => some ("tok" ++ toString t)) 1200 ⟨some "old", 0⟩
      = .ok ("tok1200", ⟨some "tok1200", 0⟩)
    ∧ (0 : Nat) ≠ 1200 :=
  ⟨rfl, by decide⟩

/-- C4: two sign calls one second apart, both more than 20 minutes after
client construction (state `(none, 0)` at time `1200`), each invoke the
signing primitive and return different tokens: the second call misses the
cache because `signed_time` still holds the construction time.  The
signing primitive here returns the issue time itself, as `iat` makes real
tokens issued at different seconds differ. -/
theorem sign_twice_within_window_resigns :
    APNClient.sign (fun t => some (toString t)) 1200 ⟨none, 0⟩
      = .ok ("1200", ⟨some "1200", 0⟩)
    ∧ APNClient.sign (fun t => some (toString t)) 1201 ⟨some "1200", 0⟩
      = .ok ("1201", ⟨some "1201", 0⟩)
    ∧ ("1200" : String) ≠ "1201" :=
  ⟨rfl, rfl, by decide⟩

/-- The `Endpoint` struct (`types.rs`): target host and port. -/
structure Endpoint where
  endpoint : String
  port : Nat

/-- The sandbox preset, `host api.sandbox.push.apple.com, port 443`. -/
def Endpoint.development : Endpoint :=
  ⟨"api.sandbox.push.apple.com", 443⟩

/-- The sandbox alternate-port preset. -/
def Endpoint.development_alter : Endpoint :=
  ⟨"api.sandbox.push.apple.com", 2197⟩

/-- The production preset, `host api.push.apple.com, port 443`. -/
def Endpoint.production : Endpoint :=
  ⟨"api.push.apple.com", 443⟩

/-- The production alternate-port preset. -/
def Endpoint.production_alter : Endpoint :=
  ⟨"api.push.apple.com", 2197⟩

/-- `From<Endpoint> for String` (`types.rs` lines 186-190): formats the
endpoint as a URL base `https://HOST:PORT`. -/
def endpointToString (e : Endpoint) : String :=
  "https://" ++ e.endpoint ++ ":" ++ toString e.port

/-- Rust `str::split` on the separator `:`, over the character list of
the input: `""` yields one empty part, a separator at either end yields
an empty part on that side. -/
def splitColon : List Char → List (List Char)
  | [] => [[]]
  | c :: rest =>
      if c = ':' then [] :: splitColon rest
      else
        match splitColon rest with
        | [] => [[c]]
        | head :: tail => (c :: head) :: tail

/-- Decimal digit value of a character, as `u16::from_str` accepts it. -/
def digitVal (c : Char) : Option Nat :=
  if 48 ≤ c.toNat ∧ c.toNat ≤ 57 then some (c.toNat - 48) else none

/-- Digit-accumulation loop of `u16::from_str`: every remaining character
must be a decimal digit and the accumulated value may never exceed
`u16::MAX`, otherwise the parse fails. -/
def parseU16Digits : List Char → Nat → Option Nat
  | [], acc => some acc
  | c :: rest, acc =>
      match digitVal c with
      | none => none
      | some d =>
          if acc * 10 + d > 65535 then none else parseU16Digits rest (acc * 10 + d)

/-- Rust `u16::from_str`: the empty string fails, one optional leading
`+` is allowed (but not alone), then at least one digit; any non-digit or
a value above `u16::MAX` fails.  A leading `-` is not special for an
unsigned type and fails as a non-digit. -/
def parseU16 : List Char → Option Nat
  | [] => none
  | c :: rest =>
      if c = '+' then
        if rest.isEmpty then none else parseU16Digits rest 0
      else parseU16Digits (c :: rest) 0

/-- Dispatch of `TryFrom<String> for Endpoint` on the collected split
parts (`types.rs` lines 192-205): exactly two parts are required, the
first becomes the host, the second must parse as a `u16` port. -/
def endpointFromParts : List (List Char) → Except Unit Endpoint
  | [h, p] =>
      match parseU16 p with
      | some v => .ok ⟨String.mk h, v⟩
      | none => .error ()
  | _ => .error ()

/-- `TryFrom<String> for Endpoint`: split the input on `:` and dispatch. -/
def endpointTryFrom (s : String) : Except Unit Endpoint :=
  endpointFromParts (splitColon s.data)

/-- Splitting a colon-free list yields that list as the only part. -/
theorem splitColon_no_colon (l : List Char) (h : ':' ∉ l) : splitColon l = [l] := by
  induction l with
  | nil => rfl
  | cons c rest ih =>
    have hc : ¬ c = ':' := by
      intro e
      exact h (by rw [e]; exact List.mem_cons_self _ _)
    have hr : ':' ∉ rest := fun m => h (List.mem_cons_of_mem _ m)
    rw [splitColon, if_neg hc, ih hr]

/-- Splitting around the first colon: a colon-free prefix becomes the
first part. -/
theorem splitColon_append (l1 l2 : List Char) (h : ':' ∉ l1) :
    splitColon (l1 ++ ':' :: l2) = l1 :: splitColon l2 := by
  induction l1 with
  | nil => rw [List.nil_append, splitColon, if_pos rfl]
  | cons c rest ih =>
    have hc : ¬ c = ':' := by
      intro e
      exact h (by rw [e]; exact List.mem_cons_self _ _)
    have hr : ':' ∉ rest := fun m => h (List.mem_cons_of_mem _ m)
    rw [List.cons_append, splitColon, if_neg hc, ih hr]

/-- A successfully parsed digit sequence contains no colon. -/
theorem parseU16Digits_no_colon (l : List Char) (acc v : Nat)
    (h : parseU16Digits l acc = some v) : ':' ∉ l := by
  induction l generalizing acc with
  | nil => simp
  | cons c rest ih =>
    rw [parseU16Digits] at h
    cases hd : digitVal c with
    | none => simp only [hd] at h; exact absurd h (by simp)
    | some d =>
      simp only [hd] at h
      by_cases hov : acc * 10 + d > 65535
      · rw [if_pos hov] at h
        exact absurd h (by simp)
      · rw [if_neg hov] at h
        intro hm
        rcases List.mem_cons.mp hm with he | hm2
        · rw [← he] at hd
          simp [digitVal] at hd
        · exact ih (acc * 10 + d) h hm2

/-- A successfully parsed `u16` string contains no colon. -/
theorem parseU16_no_colon (l : List Char) (v : Nat) (h : parseU16 l = some v) :
    ':' ∉ l := by
  cases l with
  | nil => simp
  | cons c rest =>
    rw [parseU16] at h
    by_cases hc : c = '+'
    · rw [if_pos hc] at h
      cases rest with
      | nil => simp at h
      | cons c2 r2 =>
        rw [if_neg (by simp)] at h
        intro hm
        rcases List.mem_cons.mp hm with he | hm2
        · rw [hc] at he
          exact absurd he (by decide)
        · exact parseU16Digits_no_colon _ 0 v h hm2
    · rw [if_neg hc] at h
      exact parseU16Digits_no_colon _ 0 v h

/-- C3 counterexample: the string produced from the production endpoint by
`From<Endpoint>` is `https://api.push.apple.com:443`, and applying
`TryFrom<String>` to it fails — the scheme separator makes three
colon-separated parts, so the round trip of the claim does not hold. -/
theorem endpoint_roundtrip_fails_on_production :
    endpointToString Endpoint.production = "https://api.push.apple.com:443"
    ∧ endpointTryFrom (endpointToString Endpoint.production) = .error () :=
  ⟨rfl, rfl⟩

/-- C3 (amended): `From<Endpoint>` produces the URL base
`https://HOST:PORT`, which `TryFrom<String>` rejects; the conversion that
does round-trip is from the scheme-less canonical pair: for every host
without a colon and every string that parses as a 16-bit port,
`TryFrom<String>` applied to `HOST:PORT` recovers exactly that host and
port. -/
theorem endpoint_parse_canonical_pair (s : String) (hostC pC : List Char) (v : Nat)
    (hs : s.data = hostC ++ ':' :: pC)
    (h1 : ':' ∉ hostC) (h2 : parseU16 pC = some v) :
    endpointTryFrom s = .ok ⟨String.mk hostC, v⟩ := by
  unfold endpointTryFrom
  rw [hs, splitColon_append _ _ h1, splitColon_no_colon _ (parseU16_no_colon _ _ h2),
    endpointFromParts, h2]

/-- C3 witness: parsing `api.push.apple.com:443` yields the production
host and port. -/
theorem endpoint_parse_canonical_pair_witness :
    endpointTryFrom "api.push.apple.com:443" = .ok ⟨"api.push.apple.com", 443⟩ :=
  endpoint_parse_canonical_pair "api.push.apple.com:443" "api.push.apple.com".data
    "443".data 443 rfl (by decide) (by decide)

/-- Success condition of `TryFrom<String> for Endpoint` as the claim
states it: the input splits on `:` into exactly two parts and the second
part parses as a 16-bit unsigned number. -/
def endpointParseOk (s : String) : Bool :=
  match splitColon s.data with
  | [_, p] => (parseU16 p).isSome
  | _ => false

/-- Boolean success test of the endpoint conversion. -/
def endpointResultOk : Except Unit Endpoint → Bool
  | .ok _ => true
  | .error _ => false

/-- C10: `TryFrom<String> for Endpoint` succeeds exactly when the input
splits on `:` into exactly two parts whose second parses as a 16-bit
unsigned port; every other input (no colon, more than one colon, or a
non-numeric or out-of-range port) is rejected. -/
theorem endpointTryFrom_ok_iff_two_parts (s : String) :
    endpointResultOk (endpointTryFrom s) = endpointParseOk s := by
  unfold endpointTryFrom endpointParseOk
  rcases splitColon s.data with _ | ⟨a, _ | ⟨b, _ | ⟨c, r⟩⟩⟩
  · rfl
  · rfl
  · cases hp : parseU16 b
    · simp [endpointFromParts, hp, endpointResultOk]
    · simp [endpointFromParts, hp, endpointResultOk]
  · rfl

/-- An HTTP response as `APNClient::push` observes it: status code,
response headers (values modelled as text; the `ToStrError` path for
non-text header bytes is outside every claim), and the body decoded as
JSON, with `none` modelling a body that is not valid JSON. -/
structure HttpResponse where
  status : Nat
  headers : List (String × String)
  body : Option Json

/-- First-match lookup of a response header, as `HeaderMap::get`. -/
def lookupHeader : List (String × String) → String → Option String
  | [], _ => none
  | (k, v) :: rest, key => if k = key then some v else lookupHeader rest key

/-- Deserialization of `APNErrorResponse` (derived `Deserialize`) from
the response body: the body must be valid JSON, must be an object with a
string member `reason`; the optional `timestamp` member, when present,
must be an integer (or null, which `Option` accepts); unknown members are
ignored; anything else fails to decode. -/
def decodeAPNErrorResponse : Option Json → Option APNErrorResponse
  | some (.obj fields) =>
      match lookupField fields "reason" with
      | some (.str r) =>
          match lookupField fields "timestamp" with
          | none => some ⟨r, none⟩
          | some (.num t) => some ⟨r, some t⟩
          | some .null => some ⟨r, none⟩
          | some _ => none
      | _ => none
  | _ => none

/-- The response-interpretation tail of `APNClient::push` (`client.rs`
lines 154-182): the `apns-id` header is required — its absence is
`InvalidResponseError`; with it read (and the optional `apns-unique-id`)
a 200 status yields the receipt, and any other status decodes the body
as `APNErrorResponse`, a failed decode being `InvalidResponseError` and a
successful one an `APNError` carrying the receipt, the status and the
decoded error. -/
def pushClassify (res : HttpResponse) : Except APNClientError APNResponse :=
  match lookupHeader res.headers "apns-id" with
  | none => .error .invalidResponseError
  | some id =>
      if res.status = 200 then .ok ⟨id, lookupHeader res.headers "apns-unique-id"⟩
      else
        match decodeAPNErrorResponse res.body with
        | none => .error .invalidResponseError
        | some e =>
            .error (.apnError ⟨id, lookupHeader res.headers "apns-unique-id"⟩ res.status e)

/-- C7: for every observed response, a missing `apns-id` header makes the
push fail with `InvalidResponseError`; with `apns-id` present and status
200 the push returns the receipt whose id is the `apns-id` value and
whose unique id is the `apns-unique-id` value when that header is present
and `none` when absent. -/
theorem push_receipt_from_headers (res : HttpResponse) :
    (lookupHeader res.headers "apns-id" = none →
      pushClassify res = .error .invalidResponseError)
    ∧ ∀ id, lookupHeader res.headers "apns-id" = some id → res.status = 200 →
        pushClassify res = .ok ⟨id, lookupHeader res.headers "apns-unique-id"⟩ := by
  constructor
  · intro h
    simp only [pushClassify, h]
  · intro id h h200
    simp only [pushClassify, h, h200, if_pos]

/-- C7 witness: a 200 response with `apns-id: X` and no `apns-unique-id`
produces the receipt `(X, none)`, and a 200 response without `apns-id` is
an `InvalidResponseError`. -/
theorem push_receipt_from_headers_witness :
    pushClassify ⟨200, [("apns-id", "X")], none⟩ = .ok ⟨"X", none⟩
    ∧ pushClassify ⟨200, [], none⟩ = .error .invalidResponseError :=
  ⟨(push_receipt_from_headers ⟨200, [("apns-id", "X")], none⟩).2 "X" rfl rfl,
    (push_receipt_from_headers ⟨200, [], none⟩).1 rfl⟩

/-- C6: for every observed response with a non-200 status (and the
required `apns-id` header in place), the body is decoded as the error
object: a failed decode makes the push fail with `InvalidResponseError`,
and a successful decode makes it fail with `APNError` carrying the HTTP
status, the decoded error (its `reason`), and the receipt fields already
read from the headers. -/
theorem push_non_200_decodes_error_body (res : HttpResponse) (id : String)
    (hid : lookupHeader res.headers "apns-id" = some id)
    (hst : res.status ≠ 200) :
    (decodeAPNErrorResponse res.body = none →
      pushClassify res = .error .invalidResponseError)
    ∧ ∀ e, decodeAPNErrorResponse res.body = some e →
        pushClassify res = .error
          (.apnError ⟨id, lookupHeader res.headers "apns-unique-id"⟩ res.status e) := by
  constructor
  · intro hdec
    simp only [pushClassify, hid, if_neg hst, hdec]
  · intro e hdec
    simp only [pushClassify, hid, if_neg hst, hdec]

/-- C6 witness: a 400 response with body `reason = BadDeviceToken` and
header `apns-id: X` fails with an `APNError` carrying status 400, that
reason, and the receipt `(X, none)` — not a generic decode failure. -/
theorem push_non_200_decodes_error_body_witness :
    pushClassify
        ⟨400, [("apns-id", "X")], some (Json.obj [("reason", Json.str "BadDeviceToken")])⟩
      = .error (.apnError ⟨"X", none⟩ 400 ⟨"BadDeviceToken", none⟩) :=
  (push_non_200_decodes_error_body
      ⟨400, [("apns-id", "X")], some (Json.obj [("reason", Json.str "BadDeviceToken")])⟩
      "X" rfl (by decide)).2 ⟨"BadDeviceToken", none⟩ rfl

/-- The `JsonObjectError` taxonomy (`serialize.rs`). -/
inductive JsonObjectError where
  | serializationError
  | notAnObjectError

/-- The `BuildError` taxonomy (`types.rs`): a failed conversion of a
caller value to a JSON object, wrapping its `JsonObjectError` source. -/
inductive BuildError where
  | convertJsonObjectError (source : JsonObjectError)

/-- `TryFrom<StructWrapper<T>> for Map<String, Value>` (`serialize.rs`
lines 24-35): the caller value, already turned into a generic JSON value
(the `serde_json::to_value` step, which succeeds for every value that is
representable as JSON at all), is accepted only if that value is an
object; an array or scalar is a `NotAnObjectError`. -/
def structToObject : Json → Except JsonObjectError (List (String × Json))
  | .obj fields => .ok fields
  | _ => .error .notAnObjectError

/-- `Notification::with_content_state` (`types.rs`): stores the caller
value as the `content-state` map after the object check, wrapping a
failure as a `BuildError`. -/
def Notification.with_content_state (n : Notification) (state : Json) :
    Except BuildError Notification :=
  match structToObject state with
  | .error e => .error (.convertJsonObjectError e)
  | .ok m => .ok { n with content_state := some m }

/-- `Notification::with_attributes` (`types.rs`), analogous. -/
def Notification.with_attributes (n : Notification) (attributes : Json) :
    Except BuildError Notification :=
  match structToObject attributes with
  | .error e => .error (.convertJsonObjectError e)
  | .ok m => .ok { n with attributes := some m }

/-- `Payload::with_custom` (`types.rs` lines 170-178), analogous, storing
the flattened custom top-level members. -/
def Payload.with_custom (p : Payload) (custom : Json) : Except BuildError Payload :=
  match structToObject custom with
  | .error e => .error (.convertJsonObjectError e)
  | .ok m => .ok { p with custom := some m }

/-- C8: each builder accepts the caller value exactly when its generic
JSON form is an object — an object is stored in the corresponding field,
and any array or scalar fails with `NotAnObjectError` wrapped as a
`BuildError`; the builders are pure and involve no network interaction. -/
theorem builders_accept_exactly_objects (n : Notification) (p : Payload) (v : Json) :
    (∀ fields, v = .obj fields →
      n.with_content_state v = .ok { n with content_state := some fields }
      ∧ n.with_attributes v = .ok { n with attributes := some fields }
      ∧ p.with_custom v = .ok { p with custom := some fields })
    ∧ (v.isObj = false →
      n.with_content_state v = .error (.convertJsonObjectError .notAnObjectError)
      ∧ n.with_attributes v = .error (.convertJsonObjectError .notAnObjectError)
      ∧ p.with_custom v = .error (.convertJsonObjectError .notAnObjectError)) := by
  constructor
  · rintro fields rfl
    exact ⟨rfl, rfl, rfl⟩
  · intro hv
    cases v
    case obj fields => simp [Json.isObj] at hv
    all_goals exact ⟨rfl, rfl, rfl⟩

/-- C8 witness: an object value is stored as the content-state map, and
an array value fails the custom-payload builder with the wrapped
`NotAnObjectError`. -/
theorem builders_accept_exactly_objects_witness :
    Notification.default.with_content_state (Json.obj [("a", Json.num 1)])
      = .ok { Notification.default with content_state := some [("a", Json.num 1)] }
    ∧ Payload.default.with_custom (Json.arr [])
      = .error (.convertJsonObjectError .notAnObjectError) :=
  ⟨((builders_accept_exactly_objects Notification.default Payload.default
      (Json.obj [("a", Json.num 1)])).1 [("a", Json.num 1)] rfl).1,
    ((builders_accept_exactly_objects Notification.default Payload.default
      (Json.arr [])).2 rfl).2.2⟩
